import Mathlib

/-!
Verification of the sync-video player engine.

Shallow embedding of the synchronized-player core:
* `SyncPlayerStatus` and the `AtomPlayer` property setters (Types.ts),
* the `ClusterPlayer` status derivation, seek fan-out and frame-drop
  (drift-correction) tick (ClusterPlayer.ts),
* the `TickPlayer` clock leaf (TickPlayer part of ClusterPlayer.ts file),
* the `OffsetPlayer` sequential-offset combinator (OffsetPlayer source),
* the `SyncPlayer` tree-building fold (SyncPlayer source).

All definitions are translated directly from the TypeScript source; event
delivery is synchronous in the source, so listener bodies are inlined at
their emission sites.
-/

namespace SyncVideo

/-- Status for any AtomPlayer (Types.ts `SyncPlayerStatus`). -/
inductive SyncPlayerStatus where
  | Ready
  | Pause
  | Buffering
  | Playing
  | Ended
deriving DecidableEq, Repr

open SyncPlayerStatus

/-- `AtomPlayer.isPlaying` as a predicate on a status: Playing or Buffering. -/
def isPlayingStatus (s : SyncPlayerStatus) : Bool :=
  s = Playing || s = Buffering

/-!  ## ClusterPlayer status derivation (ClusterPlayer.updateStatus)

`updateStatus` runs whenever one child ("emitter") fires a status event;
the other child is the "receptor".  It recomputes the combinator's own
status through the change-detecting setter; we model it as the function
from (emitter status, receptor status, current combinator status) to the
resulting combinator status. -/
def updateStatus (emitter receptor own : SyncPlayerStatus) : SyncPlayerStatus :=
  match emitter with
  | Ready =>
      if receptor = Ready ∨ receptor = Ended then Ready else own
  | Pause =>
      if receptor ≠ Playing then Pause else own
  | Buffering =>
      if receptor ≠ Pause then Buffering else own
  | Playing =>
      if receptor = Playing ∨ receptor = Ended then Playing else own
  | Ended => receptor

/-! ## ClusterPlayer frame-drop (drift-correction) check -/

/-- The fixed interval of the `setInterval` drift check, in milliseconds. -/
def frameDropCheckInterval : ℕ := 2000

/-- One child of a ClusterPlayer, for naming the target of a corrective seek. -/
inductive ClusterChild where
  | row
  | col
deriving DecidableEq, Repr

/-- One tick of `ClusterPlayer.startFrameDropCheck`'s interval callback.
Inputs: the combinator's own status, both children's `currentTime`, and the
consecutive-miss counter (`frameDropCount`).  Output: the new counter and an
optional corrective seek `(child to seek, target time)`. -/
def frameDropTick (own : SyncPlayerStatus) (rowTime colTime : ℤ) (count : ℕ) :
    ℕ × Option (ClusterChild × ℤ) :=
  if own ≠ Playing then
    (0, none)
  else
    let diff : ℤ := rowTime - colTime
    let count' : ℕ := if 1000 < |diff| then count + 1 else 0
    if count' < 2 then
      (count', none)
    else
      (0, some (if diff < 0 then (ClusterChild.row, colTime) else (ClusterChild.col, rowTime)))

/-! ## ClusterPlayer seek fan-out (ClusterPlayer.seekImpl) -/

/-- Observable calls `ClusterPlayer.seekImpl` makes on its children. -/
inductive ClusterAction where
  | seekRow (ms : ℤ)
  | seekCol (ms : ℤ)
  | playRow
  | playCol
deriving DecidableEq, Repr

/-- `ClusterPlayer.seekImpl` as the list of child calls it issues.
It reads `wasPlaying := this.isPlaying`, i.e. the *combinator's own*
status, seeks both children, and replays both children iff `wasPlaying`. -/
def clusterSeekActions (ownStatus : SyncPlayerStatus) (ms : ℤ) : List ClusterAction :=
  let wasPlaying := isPlayingStatus ownStatus
  [ClusterAction.seekRow ms, ClusterAction.seekCol ms] ++
    (if wasPlaying then [ClusterAction.playRow, ClusterAction.playCol] else [])

/-! ## AtomPlayer fields, setters and initialization gate (Types.ts) -/

/-- The notification channel (`AtomPlayerEvents`). -/
inductive AtomEvent where
  | status
  | timeupdate
  | durationchange
  | ratechange
  | visibilitychange
  | ready
deriving DecidableEq, Repr

/-- `AtomPlayerInitStatus`. -/
inductive AtomInitStatus where
  | Idle
  | Initializing
  | InitReady
deriving DecidableEq, Repr

/-- The stored fields of an `AtomPlayer`.  `currentTime` / `duration` are the
stored (already floored) values; `playbackRate` is stored as a rational. -/
structure AtomState where
  initStatus : AtomInitStatus
  status : SyncPlayerStatus
  ignoreSetStatus : Bool
  currentTime : ℤ
  duration : ℤ
  playbackRate : ℚ
  visible : Bool
deriving DecidableEq, Repr

/-- `normalize` (utils.ts): `Math.floor(rate * 1000) / 1000`. -/
def normalize (rate : ℚ) : ℚ :=
  (⌊rate * 1000⌋ : ℚ) / 1000

/-- `isEqual` (utils.ts): `Math.floor(rate1 * 1000) === Math.floor(rate2 * 1000)`. -/
def isEqual (rate1 rate2 : ℚ) : Bool :=
  ⌊rate1 * 1000⌋ = ⌊rate2 * 1000⌋

/-- The `status` setter: writes and emits only when the value changes and
the `ignoreSetStatus` flag is down. -/
def setStatus (s : AtomState) (value : SyncPlayerStatus) : AtomState × List AtomEvent :=
  if ¬ s.ignoreSetStatus ∧ s.status ≠ value then
    ({ s with status := value }, [AtomEvent.status])
  else
    (s, [])

/-- The `currentTime` setter: floors the input, writes and emits only on change. -/
def setCurrentTime (s : AtomState) (ms : ℚ) : AtomState × List AtomEvent :=
  let ms' := ⌊ms⌋
  if s.currentTime ≠ ms' then
    ({ s with currentTime := ms' }, [AtomEvent.timeupdate])
  else
    (s, [])

/-- The `duration` setter: floors the input, writes and emits only on change. -/
def setDuration (s : AtomState) (ms : ℚ) : AtomState × List AtomEvent :=
  let ms' := ⌊ms⌋
  if s.duration ≠ ms' then
    ({ s with duration := ms' }, [AtomEvent.durationchange])
  else
    (s, [])

/-- The `playbackRate` setter: normalizes the input to 3 decimals, writes and
emits only when `isEqual` on the stored value fails.  (The subclass
`setPlaybackRateImpl` hook acts on subclass state, outside `AtomState`.) -/
def setPlaybackRate (s : AtomState) (value : ℚ) : AtomState × List AtomEvent :=
  let rate := normalize value
  if ¬ isEqual s.playbackRate rate then
    ({ s with playbackRate := rate }, [AtomEvent.ratechange])
  else
    (s, [])

/-- The `visible` setter: writes and emits only on change. -/
def setVisible (s : AtomState) (value : Bool) : AtomState × List AtomEvent :=
  if s.visible ≠ value then
    ({ s with visible := value }, [AtomEvent.visibilitychange])
  else
    (s, [])

/-- What `AtomPlayer.init` does when entered, by init status: already done,
await the in-flight initialization (`once("ready", resolve)`), or start a
new initialization run. -/
inductive InitAction where
  | returnDone
  | awaitExisting
  | startNew
deriving DecidableEq, Repr

/-- Dispatch of `AtomPlayer.init` on the current init status. -/
def initDispatch : AtomInitStatus → InitAction
  | AtomInitStatus.InitReady => InitAction.returnDone
  | AtomInitStatus.Initializing => InitAction.awaitExisting
  | AtomInitStatus.Idle => InitAction.startNew

/-- The `AtomPlayer` state right after the constructor returns: the
constructor starts `init()`, whose synchronous prefix (the `Idle` branch up
to the first `await`) raises `ignoreSetStatus` and moves the init status to
`Initializing`; the field initializers give the rest. -/
def atomAfterConstructor : AtomState :=
  { initStatus := AtomInitStatus.Initializing
    status := Ready
    ignoreSetStatus := true
    currentTime := 0
    duration := 0
    playbackRate := 1
    visible := true }

/-- The synchronous prefix of `AtomPlayer.ready()` and of `AtomPlayer.play()`
up to `await this.loadInit`: when the player is not yet initialized, both
run `this.status = SyncPlayerStatus.Buffering` (through the gated setter)
and then await the in-flight initialization. -/
def readyPlayPreAwait (s : AtomState) : AtomState × List AtomEvent :=
  if s.initStatus ≠ AtomInitStatus.InitReady then
    setStatus s Buffering
  else
    (s, [])

/-! ## AtomPlayer.stop with abstract subclass hooks (Types.ts)

`stop()` sets the status to `Ended`, then raises `ignoreSetStatus` and runs
`readyImpl()` followed by `stopImpl()`, then lowers the flag.  The subclass
hooks are modelled as lists of primitive property writes, each going through
the corresponding gated setter of the base class. -/

/-- A primitive property write a subclass hook may perform. -/
inductive HookAction where
  | writeStatus (v : SyncPlayerStatus)
  | writeCurrentTime (ms : ℚ)
  | writeDuration (ms : ℚ)
  | writePlaybackRate (v : ℚ)
  | writeVisible (b : Bool)
deriving DecidableEq, Repr

/-- Run one hook write through the corresponding setter. -/
def runHookAction (s : AtomState) : HookAction → AtomState × List AtomEvent
  | HookAction.writeStatus v => setStatus s v
  | HookAction.writeCurrentTime ms => setCurrentTime s ms
  | HookAction.writeDuration ms => setDuration s ms
  | HookAction.writePlaybackRate v => setPlaybackRate s v
  | HookAction.writeVisible b => setVisible s b

/-- Run a hook (a list of property writes), collecting emitted events. -/
def runHook (s : AtomState) : List HookAction → AtomState × List AtomEvent
  | [] => (s, [])
  | a :: rest =>
      let (s', evs) := runHookAction s a
      let (s'', evs') := runHook s' rest
      (s'', evs ++ evs')

/-- `AtomPlayer.stop()` (for an initialized player), with the subclass
`readyImpl` / `stopImpl` hooks given as write lists. -/
def atomStop (s : AtomState) (readyHook stopHook : List HookAction) :
    AtomState × List AtomEvent :=
  if s.status = Ended then
    (s, [])
  else
    let (s1, evs1) := setStatus s Ended
    let s2 := { s1 with ignoreSetStatus := true }
    let (s3, evs2) := runHook s2 readyHook
    let (s4, evs3) := runHook s3 stopHook
    ({ s4 with ignoreSetStatus := false }, evs1 ++ evs2 ++ evs3)

/-! ## TickPlayer (the clock leaf)

State of a `TickPlayer` after its initialization has completed: status,
stored integer times and whether the animation-frame loop is scheduled
(`playRafTicket` set).  All modelled operations are the public `AtomPlayer`
operations specialized with the `TickPlayer` hooks. -/

structure TickState where
  status : SyncPlayerStatus
  currentTime : ℕ
  duration : ℕ
  running : Bool
deriving DecidableEq, Repr

/-- State of `new TickPlayer(duration)` once initialization has completed. -/
def tickInit (duration : ℕ) : TickState :=
  { status := Ready, currentTime := 0, duration := duration, running := false }

/-- `AtomPlayer.ready()` on a TickPlayer: if not already `Ready`, set the
status and run `readyImpl` (`_stopTimer`). -/
def tickReady (s : TickState) : TickState :=
  if s.status ≠ Ready then
    { s with status := Ready, running := false }
  else
    s

/-- `AtomPlayer.pause()` on a TickPlayer: unless `Pause`/`Ended`, set the
status and run `pauseImpl` (`_stopTimer`). -/
def tickPause (s : TickState) : TickState :=
  if s.status = Pause ∨ s.status = Ended then
    s
  else
    { s with status := Pause, running := false }

/-- `AtomPlayer.stop()` on a TickPlayer: unless already `Ended`, set the
status to `Ended`, then (`readyImpl`; `stopImpl`) stop the timer and set
`currentTime = duration`. -/
def tickStop (s : TickState) : TickState :=
  if s.status = Ended then
    s
  else
    { s with status := Ended, running := false, currentTime := s.duration }

/-- `AtomPlayer.play()` on a TickPlayer: unless `Playing`/`Ended`, run
`playImpl`: `_startTimer` immediately runs `playRaf` once, which re-writes
`currentTime` to its current value and, if `currentTime ≥ duration`, calls
`stop()` (whose raised `ignoreSetStatus` then suppresses `playImpl`'s
trailing `status = Playing` write); otherwise the loop is scheduled and the
status becomes `Playing`. -/
def tickPlay (s : TickState) : TickState :=
  if s.status = Playing ∨ s.status = Ended then
    s
  else if s.duration ≤ s.currentTime then
    tickStop s
  else
    { s with status := Playing, running := true }

/-- `TickPlayer.seekImpl` (`_resetTimer`): if the loop is scheduled, restart
it from the new time (`_startTimer`, with its end-of-duration check);
otherwise just write `currentTime`. -/
def tickSeekImpl (s : TickState) (ms : ℕ) : TickState :=
  if s.running then
    if s.duration ≤ ms then tickStop { s with currentTime := ms }
    else { s with currentTime := ms }
  else
    { s with currentTime := ms }

/-- `AtomPlayer.seek(ms)` on an initialized TickPlayer: clamp to
`max(⌊ms⌋, 0)`; no-op when equal to `currentTime`; delegate to `stop()` when
at/after `duration`; otherwise run `seekImpl` and re-apply the remembered
pre-seek status via the corresponding public operation. -/
def tickSeek (s : TickState) (ms : ℤ) : TickState :=
  let m : ℕ := (max ms 0).toNat
  if m = s.currentTime then
    s
  else if s.duration ≤ m then
    tickStop s
  else
    let last := s.status
    let s' := tickSeekImpl s m
    match last with
    | Ready | Ended => tickReady s'
    | Pause => tickPause s'
    | Buffering | Playing => tickPlay s'

/-! ## OffsetPlayer (sequential-offset combinator)

Composite state of an `OffsetPlayer` together with its two children: the
internally constructed delay `timer = new TickPlayer(offset)` and the
wrapped `player`, here instantiated as the repository's `TickPlayer` leaf
so the model is executable.  Event delivery is synchronous in the source,
so each child setter inlines the `OffsetPlayer` constructor's listener for
the corresponding event.  All playback rates are 1 and initialization has
completed. -/

structure OffState where
  timerStatus : SyncPlayerStatus
  timerTime : ℕ
  timerDuration : ℕ
  timerRunning : Bool
  playerStatus : SyncPlayerStatus
  playerTime : ℕ
  playerDuration : ℕ
  playerRunning : Bool
  ownStatus : SyncPlayerStatus
  ownTime : ℕ
  ownDuration : ℕ
  ownVisible : Bool
  ownIgnore : Bool
  activeIsTimer : Bool
  offset : ℕ
deriving DecidableEq, Repr

/-- The combinator's own `status` setter (gated by its `ignoreSetStatus`). -/
def offSetOwnStatus (s : OffState) (v : SyncPlayerStatus) : OffState :=
  if ¬ s.ownIgnore ∧ s.ownStatus ≠ v then { s with ownStatus := v } else s

/-- The combinator's own `currentTime` setter. -/
def offSetOwnTime (s : OffState) (ms : ℕ) : OffState :=
  if s.ownTime ≠ ms then { s with ownTime := ms } else s

/-- The combinator's own `duration` setter. -/
def offSetOwnDuration (s : OffState) (ms : ℕ) : OffState :=
  if s.ownDuration ≠ ms then { s with ownDuration := ms } else s

/-- The combinator's own `visible` setter. -/
def offSetOwnVisible (s : OffState) (b : Bool) : OffState :=
  if s.ownVisible ≠ b then { s with ownVisible := b } else s

/-- The `currentPlayer` setter, switching the active child to the wrapped
player: on change, also sets `visible = (player ≠ timer) = true`. -/
def offActivatePlayer (s : OffState) : OffState :=
  if s.activeIsTimer then
    offSetOwnVisible { s with activeIsTimer := false } true
  else
    s

/-- The `currentPlayer` setter, switching the active child to the timer:
on change, also sets `visible = (timer ≠ timer) = false`. -/
def offActivateTimer (s : OffState) : OffState :=
  if ¬ s.activeIsTimer then
    offSetOwnVisible { s with activeIsTimer := true } false
  else
    s

/-- Both `durationchange` listeners: `this.duration = this.timer.duration + this.player.duration`. -/
def offUpdateDuration (s : OffState) : OffState :=
  offSetOwnDuration s (s.timerDuration + s.playerDuration)

/-- The wrapped player's `timeupdate` listener: if it is the active child,
`this.currentTime = this.player.currentTime + this._offset`. -/
def playerTimeupdateListener (s : OffState) : OffState :=
  if ¬ s.activeIsTimer then offSetOwnTime s (s.playerTime + s.offset) else s

/-- The wrapped player's `currentTime` setter (with its listener inlined). -/
def playerSetTime (s : OffState) (ms : ℕ) : OffState :=
  if s.playerTime ≠ ms then
    playerTimeupdateListener { s with playerTime := ms }
  else
    s

/-- The wrapped player's `status` listener: if it is the active child,
`this.status = this.player.status`. -/
def playerStatusListener (s : OffState) : OffState :=
  if ¬ s.activeIsTimer then offSetOwnStatus s s.playerStatus else s

/-- The wrapped player's `status` setter (with its listener inlined). -/
def playerSetStatus (s : OffState) (v : SyncPlayerStatus) : OffState :=
  if s.playerStatus ≠ v then
    playerStatusListener { s with playerStatus := v }
  else
    s

/-- `player.ready()`. -/
def playerReady (s : OffState) : OffState :=
  if s.playerStatus ≠ Ready then
    { playerSetStatus s Ready with playerRunning := false }
  else
    s

/-- `player.pause()`. -/
def playerPause (s : OffState) : OffState :=
  if s.playerStatus = Pause ∨ s.playerStatus = Ended then
    s
  else
    { playerSetStatus s Pause with playerRunning := false }

/-- `player.stop()`: status to `Ended` (listener fires), then `readyImpl`
and `stopImpl` stop the timer loop and write `currentTime = duration`. -/
def playerStop (s : OffState) : OffState :=
  if s.playerStatus = Ended then
    s
  else
    let s1 := playerSetStatus s Ended
    playerSetTime { s1 with playerRunning := false } s1.playerDuration

/-- `player.play()` (cf. `tickPlay`): at/after the end the immediate
`playRaf` run stops the player and the trailing `Playing` write is
suppressed; otherwise the loop starts and the status becomes `Playing`. -/
def playerPlay (s : OffState) : OffState :=
  if s.playerStatus = Playing ∨ s.playerStatus = Ended then
    s
  else if s.playerDuration ≤ s.playerTime then
    playerStop s
  else
    playerSetStatus { s with playerRunning := true } Playing

/-- `player.seek(ms)` (`AtomPlayer.seek` with `TickPlayer` hooks; internal
call sites pass a natural number, so the clamp is the identity). -/
def playerSeek (s : OffState) (ms : ℕ) : OffState :=
  if ms = s.playerTime then
    s
  else if s.playerDuration ≤ ms then
    playerStop s
  else
    let last := s.playerStatus
    let s1 :=
      if s.playerRunning then
        if s.playerDuration ≤ ms then playerStop (playerSetTime s ms)
        else playerSetTime s ms
      else playerSetTime s ms
    match last with
    | Ready | Ended => playerReady s1
    | Pause => playerPause s1
    | Buffering | Playing => playerPlay s1

/-- The timer's `timeupdate` listener: if it is the active child,
`this.currentTime = this.timer.currentTime`. -/
def timerTimeupdateListener (s : OffState) : OffState :=
  if s.activeIsTimer then offSetOwnTime s s.timerTime else s

/-- The timer's `currentTime` setter (with its listener inlined). -/
def timerSetTime (s : OffState) (ms : ℕ) : OffState :=
  if s.timerTime ≠ ms then
    timerTimeupdateListener { s with timerTime := ms }
  else
    s

/-- The timer's `status` listener: while the timer is the active child, a
non-`Ended` status is mirrored onto the combinator; when the timer ends,
the active child switches to the wrapped player and, if the combinator was
`Playing`, the wrapped player is rewound to 0 and started. -/
def timerStatusListener (s : OffState) : OffState :=
  if ¬ s.activeIsTimer then
    s
  else if s.timerStatus ≠ Ended then
    offSetOwnStatus s s.timerStatus
  else
    let s1 := offActivatePlayer s
    if s1.ownStatus = Playing then playerPlay (playerSeek s1 0) else s1

/-- The timer's `status` setter (with its listener inlined). -/
def timerSetStatus (s : OffState) (v : SyncPlayerStatus) : OffState :=
  if s.timerStatus ≠ v then
    timerStatusListener { s with timerStatus := v }
  else
    s

/-- The timer's `duration` setter (with the `durationchange` listener inlined). -/
def timerSetDuration (s : OffState) (ms : ℕ) : OffState :=
  if s.timerDuration ≠ ms then
    offUpdateDuration { s with timerDuration := ms }
  else
    s

/-- `timer.ready()`. -/
def timerReady (s : OffState) : OffState :=
  if s.timerStatus ≠ Ready then
    { timerSetStatus s Ready with timerRunning := false }
  else
    s

/-- `timer.pause()`. -/
def timerPause (s : OffState) : OffState :=
  if s.timerStatus = Pause ∨ s.timerStatus = Ended then
    s
  else
    { timerSetStatus s Pause with timerRunning := false }

/-- `timer.stop()`. -/
def timerStop (s : OffState) : OffState :=
  if s.timerStatus = Ended then
    s
  else
    let s1 := timerSetStatus s Ended
    timerSetTime { s1 with timerRunning := false } s1.timerDuration

/-- `timer.play()` (cf. `tickPlay`). -/
def timerPlay (s : OffState) : OffState :=
  if s.timerStatus = Playing ∨ s.timerStatus = Ended then
    s
  else if s.timerDuration ≤ s.timerTime then
    timerStop s
  else
    timerSetStatus { s with timerRunning := true } Playing

/-- `timer.seek(ms)`. -/
def timerSeek (s : OffState) (ms : ℕ) : OffState :=
  if ms = s.timerTime then
    s
  else if s.timerDuration ≤ ms then
    timerStop s
  else
    let last := s.timerStatus
    let s1 :=
      if s.timerRunning then
        if s.timerDuration ≤ ms then timerStop (timerSetTime s ms)
        else timerSetTime s ms
      else timerSetTime s ms
    match last with
    | Ready | Ended => timerReady s1
    | Pause => timerPause s1
    | Buffering | Playing => timerPlay s1

/-- `OffsetPlayer.readyImpl`: `Promise.all([this.player.ready(), this.timer.ready()])`. -/
def offReadyImpl (s : OffState) : OffState :=
  timerReady (playerReady s)

/-- `OffsetPlayer.seekTimer(ms)`: if the timer is not active, activate it,
ready the wrapped player and rewind it to 0; then seek the timer. -/
def offSeekTimer (s : OffState) (ms : ℕ) : OffState :=
  let s1 :=
    if ¬ s.activeIsTimer then
      playerSeek (playerReady (offActivateTimer s)) 0
    else
      s
  timerSeek s1 ms

/-- `OffsetPlayer.seekPlayer(ms)` (`ms ≥ offset` at call sites): if the
wrapped player is not active, activate it and stop the timer; then seek the
wrapped player to `ms - offset`. -/
def offSeekPlayer (s : OffState) (ms : ℕ) : OffState :=
  let s1 :=
    if s.activeIsTimer then
      timerStop (offActivatePlayer s)
    else
      s
  playerSeek s1 (ms - s1.offset)

/-- `OffsetPlayer.seekImpl(ms)`: remember the active child and whether it
was playing; dispatch on `ms ≥ offset`; if the active child changed and was
playing, play the newly active child. -/
def offSeekImpl (s : OffState) (ms : ℕ) : OffState :=
  let oldActiveIsTimer := s.activeIsTimer
  let wasPlaying := isPlayingStatus (if s.activeIsTimer then s.timerStatus else s.playerStatus)
  let s1 := if s.offset ≤ ms then offSeekPlayer s ms else offSeekTimer s ms
  if s1.activeIsTimer ≠ oldActiveIsTimer ∧ wasPlaying then
    if s1.activeIsTimer then timerPlay s1 else playerPlay s1
  else
    s1

/-- `ready()` on the combinator (inherited `AtomPlayer.ready`). -/
def offReady (s : OffState) : OffState :=
  if s.ownStatus ≠ Ready then
    offReadyImpl (offSetOwnStatus s Ready)
  else
    s

/-- `play()` on the combinator (inherited `AtomPlayer.play`; `playImpl`
delegates to the active child). -/
def offPlay (s : OffState) : OffState :=
  if s.ownStatus = Playing ∨ s.ownStatus = Ended then
    s
  else if s.activeIsTimer then
    timerPlay s
  else
    playerPlay s

/-- `pause()` on the combinator. -/
def offPause (s : OffState) : OffState :=
  if s.ownStatus = Pause ∨ s.ownStatus = Ended then
    s
  else
    let s1 := offSetOwnStatus s Pause
    if s1.activeIsTimer then timerPause s1 else playerPause s1

/-- `stop()` on the combinator: status to `Ended`, then under the raised
`ignoreSetStatus` flag run `readyImpl` and `stopImpl` (stop both children,
reset the active child to the wrapped player). -/
def offStop (s : OffState) : OffState :=
  if s.ownStatus = Ended then
    s
  else
    let s1 := { offSetOwnStatus s Ended with ownIgnore := true }
    let s2 := offReadyImpl s1
    let s3 := offActivatePlayer (playerStop (timerStop s2))
    { s3 with ownIgnore := false }

/-- `seek(ms)` on the combinator (inherited `AtomPlayer.seek` with
`OffsetPlayer.seekImpl`). -/
def offSeek (s : OffState) (ms : ℤ) : OffState :=
  let m : ℕ := (max ms 0).toNat
  if m = s.ownTime then
    s
  else if s.ownDuration ≤ m then
    offStop s
  else
    let last := s.ownStatus
    let s1 := offSeekImpl s m
    match last with
    | Ready | Ended => offReady s1
    | Pause => offPause s1
    | Buffering | Playing => offPlay s1

/-- `OffsetPlayer.setOffset(ms)`: on change, write the timer's duration
(firing the `durationchange` listener), store the offset and re-run the
seek switching logic at the current time. -/
def offSetOffset (s : OffState) (ms : ℕ) : OffState :=
  if s.offset ≠ ms then
    let s1 := timerSetDuration s ms
    let s2 := { s1 with offset := ms }
    offSeekImpl s2 s2.ownTime
  else
    s

/-- State of `new OffsetPlayer(offset, player)` (wrapped player a fresh
`TickPlayer(playerDuration)`) once initialization has completed: the active
child is the timer iff `offset > 0`; the constructor mirrors status, sum of
durations, active-child time and visibility. -/
def offInit (offset playerDuration : ℕ) : OffState :=
  { timerStatus := Ready
    timerTime := 0
    timerDuration := offset
    timerRunning := false
    playerStatus := Ready
    playerTime := 0
    playerDuration := playerDuration
    playerRunning := false
    ownStatus := Ready
    ownTime := 0
    ownDuration := offset + playerDuration
    ownVisible := decide (¬ 0 < offset)
    ownIgnore := false
    activeIsTimer := decide (0 < offset)
    offset := offset }

/-- The exposed-duration invariant of the sequential-offset combinator:
`duration = timer.duration + player.duration`. -/
def offDurationInv (s : OffState) : Prop :=
  s.ownDuration = s.timerDuration + s.playerDuration

instance (s : OffState) : Decidable (offDurationInv s) := by
  unfold offDurationInv
  infer_instance

/-- Helper relation for invariant preservation: `t` has the same three
duration fields as `s`. -/
def durOK (s t : OffState) : Prop :=
  t.timerDuration = s.timerDuration ∧ t.playerDuration = s.playerDuration ∧
    t.ownDuration = s.ownDuration

/-! ## SyncPlayer tree builder -/

/-- Shape of the player tree built by `SyncPlayer`: a leaf is any input
player, `cluster l r` is `new ClusterPlayer(l, r)`. -/
inductive PlayerTree where
  | leaf (id : ℕ)
  | cluster (l r : PlayerTree)
deriving DecidableEq, Repr

/-- `SyncPlayer(players)`:
`players.reduce((combinedPlayer, player) => new ClusterPlayer(combinedPlayer, player))`.
`Array.prototype.reduce` with no initial value throws a `TypeError` on an
empty array (modelled as `none`) and otherwise left-folds starting from the
first element. -/
def syncPlayerBuild : List PlayerTree → Option PlayerTree
  | [] => none
  | p :: ps => some (ps.foldl PlayerTree.cluster p)

/-! # Theorems -/

/-! ## Duration-field preservation lemmas for the OffsetPlayer model

`durOK s t` says `t` carries the same `timerDuration`, `playerDuration`
and `ownDuration` as `s`; every modeled operation except the
duration-writing ones (`timerSetDuration`, `offUpdateDuration`,
`offSetOffset`) satisfies it. -/

theorem durOK_refl (s : OffState) : durOK s s :=
  ⟨rfl, rfl, rfl⟩

theorem durOK_trans {s t u : OffState} (h1 : durOK s t) (h2 : durOK t u) : durOK s u :=
  ⟨h2.1.trans h1.1, h2.2.1.trans h1.2.1, h2.2.2.trans h1.2.2⟩

theorem durOK_offSetOwnStatus (s : OffState) (v : SyncPlayerStatus) :
    durOK s (offSetOwnStatus s v) := by
  unfold offSetOwnStatus
  split <;> exact ⟨rfl, rfl, rfl⟩

theorem durOK_offSetOwnTime (s : OffState) (ms : ℕ) : durOK s (offSetOwnTime s ms) := by
  unfold offSetOwnTime
  split <;> exact ⟨rfl, rfl, rfl⟩

theorem durOK_offSetOwnVisible (s : OffState) (b : Bool) : durOK s (offSetOwnVisible s b) := by
  unfold offSetOwnVisible
  split <;> exact ⟨rfl, rfl, rfl⟩

theorem durOK_offActivatePlayer (s : OffState) : durOK s (offActivatePlayer s) := by
  unfold offActivatePlayer
  split
  · exact durOK_trans (show durOK s { s with activeIsTimer := false } from ⟨rfl, rfl, rfl⟩)
      (durOK_offSetOwnVisible _ _)
  · exact durOK_refl s

theorem durOK_offActivateTimer (s : OffState) : durOK s (offActivateTimer s) := by
  unfold offActivateTimer
  split
  · exact durOK_trans (show durOK s { s with activeIsTimer := true } from ⟨rfl, rfl, rfl⟩)
      (durOK_offSetOwnVisible _ _)
  · exact durOK_refl s

theorem durOK_playerTimeupdateListener (s : OffState) :
    durOK s (playerTimeupdateListener s) := by
  unfold playerTimeupdateListener
  split
  · exact durOK_offSetOwnTime _ _
  · exact durOK_refl s

theorem durOK_playerSetTime (s : OffState) (ms : ℕ) : durOK s (playerSetTime s ms) := by
  unfold playerSetTime
  split
  · exact durOK_trans (show durOK s { s with playerTime := ms } from ⟨rfl, rfl, rfl⟩)
      (durOK_playerTimeupdateListener _)
  · exact durOK_refl s

theorem durOK_playerStatusListener (s : OffState) : durOK s (playerStatusListener s) := by
  unfold playerStatusListener
  split
  · exact durOK_offSetOwnStatus _ _
  · exact durOK_refl s

theorem durOK_playerSetStatus (s : OffState) (v : SyncPlayerStatus) :
    durOK s (playerSetStatus s v) := by
  unfold playerSetStatus
  split
  · exact durOK_trans (show durOK s { s with playerStatus := v } from ⟨rfl, rfl, rfl⟩)
      (durOK_playerStatusListener _)
  · exact durOK_refl s

theorem durOK_playerReady (s : OffState) : durOK s (playerReady s) := by
  unfold playerReady
  split
  · exact durOK_playerSetStatus s Ready
  · exact durOK_refl s

theorem durOK_playerPause (s : OffState) : durOK s (playerPause s) := by
  unfold playerPause
  split
  · exact durOK_refl s
  · exact durOK_playerSetStatus s Pause

theorem durOK_playerStop (s : OffState) : durOK s (playerStop s) := by
  simp only [playerStop]
  split
  · exact durOK_refl s
  · exact durOK_trans (durOK_playerSetStatus s Ended) (durOK_playerSetTime _ _)

theorem durOK_playerPlay (s : OffState) : durOK s (playerPlay s) := by
  simp only [playerPlay]
  split
  · exact durOK_refl s
  · split
    · exact durOK_playerStop s
    · exact durOK_trans (show durOK s { s with playerRunning := true } from ⟨rfl, rfl, rfl⟩)
        (durOK_playerSetStatus _ _)

theorem durOK_playerSeek (s : OffState) (ms : ℕ) : durOK s (playerSeek s ms) := by
  simp only [playerSeek]
  split
  · exact durOK_refl s
  · split
    · exact durOK_playerStop s
    · split <;>
        (first
          | refine durOK_trans ?_ (durOK_playerReady _)
          | refine durOK_trans ?_ (durOK_playerPause _)
          | refine durOK_trans ?_ (durOK_playerPlay _)) <;>
        (first
          | exact durOK_playerSetTime s ms
          | (split <;>
              first
                | exact durOK_trans (durOK_playerSetTime s ms) (durOK_playerStop _)
                | exact durOK_playerSetTime s ms))

theorem durOK_timerTimeupdateListener (s : OffState) :
    durOK s (timerTimeupdateListener s) := by
  unfold timerTimeupdateListener
  split
  · exact durOK_offSetOwnTime _ _
  · exact durOK_refl s

theorem durOK_timerSetTime (s : OffState) (ms : ℕ) : durOK s (timerSetTime s ms) := by
  unfold timerSetTime
  split
  · exact durOK_trans (show durOK s { s with timerTime := ms } from ⟨rfl, rfl, rfl⟩)
      (durOK_timerTimeupdateListener _)
  · exact durOK_refl s

theorem durOK_timerStatusListener (s : OffState) : durOK s (timerStatusListener s) := by
  simp only [timerStatusListener]
  split
  · exact durOK_refl s
  · split
    · exact durOK_offSetOwnStatus _ _
    · split
      · exact durOK_trans (durOK_offActivatePlayer s)
          (durOK_trans (durOK_playerSeek _ 0) (durOK_playerPlay _))
      · exact durOK_offActivatePlayer s

theorem durOK_timerSetStatus (s : OffState) (v : SyncPlayerStatus) :
    durOK s (timerSetStatus s v) := by
  unfold timerSetStatus
  split
  · exact durOK_trans (show durOK s { s with timerStatus := v } from ⟨rfl, rfl, rfl⟩)
      (durOK_timerStatusListener _)
  · exact durOK_refl s

theorem durOK_timerReady (s : OffState) : durOK s (timerReady s) := by
  unfold timerReady
  split
  · exact durOK_timerSetStatus s Ready
  · exact durOK_refl s

theorem durOK_timerPause (s : OffState) : durOK s (timerPause s) := by
  unfold timerPause
  split
  · exact durOK_refl s
  · exact durOK_timerSetStatus s Pause

theorem durOK_timerStop (s : OffState) : durOK s (timerStop s) := by
  simp only [timerStop]
  split
  · exact durOK_refl s
  · exact durOK_trans (durOK_timerSetStatus s Ended) (durOK_timerSetTime _ _)

theorem durOK_timerPlay (s : OffState) : durOK s (timerPlay s) := by
  simp only [timerPlay]
  split
  · exact durOK_refl s
  · split
    · exact durOK_timerStop s
    · exact durOK_trans (show durOK s { s with timerRunning := true } from ⟨rfl, rfl, rfl⟩)
        (durOK_timerSetStatus _ _)

theorem durOK_timerSeek (s : OffState) (ms : ℕ) : durOK s (timerSeek s ms) := by
  simp only [timerSeek]
  split
  · exact durOK_refl s
  · split
    · exact durOK_timerStop s
    · split <;>
        (first
          | refine durOK_trans ?_ (durOK_timerReady _)
          | refine durOK_trans ?_ (durOK_timerPause _)
          | refine durOK_trans ?_ (durOK_timerPlay _)) <;>
        (first
          | exact durOK_timerSetTime s ms
          | (split <;>
              first
                | exact durOK_trans (durOK_timerSetTime s ms) (durOK_timerStop _)
                | exact durOK_timerSetTime s ms))

theorem durOK_offReadyImpl (s : OffState) : durOK s (offReadyImpl s) :=
  durOK_trans (durOK_playerReady s) (durOK_timerReady _)

theorem durOK_offSeekTimer (s : OffState) (ms : ℕ) : durOK s (offSeekTimer s ms) := by
  have h1 : durOK s (if ¬ s.activeIsTimer then
      playerSeek (playerReady (offActivateTimer s)) 0 else s) := by
    split
    · exact durOK_trans (durOK_offActivateTimer s)
        (durOK_trans (durOK_playerReady _) (durOK_playerSeek _ 0))
    · exact durOK_refl s
  simp only [offSeekTimer]
  exact durOK_trans h1 (durOK_timerSeek _ ms)

theorem durOK_offSeekPlayer (s : OffState) (ms : ℕ) : durOK s (offSeekPlayer s ms) := by
  have h1 : durOK s (if s.activeIsTimer then timerStop (offActivatePlayer s) else s) := by
    split
    · exact durOK_trans (durOK_offActivatePlayer s) (durOK_timerStop _)
    · exact durOK_refl s
  simp only [offSeekPlayer]
  exact durOK_trans h1 (durOK_playerSeek _ _)

theorem durOK_offSeekImpl (s : OffState) (ms : ℕ) : durOK s (offSeekImpl s ms) := by
  simp only [offSeekImpl]
  repeat' split
  all_goals first
    | exact durOK_offSeekPlayer s ms
    | exact durOK_offSeekTimer s ms
    | exact durOK_trans (durOK_offSeekPlayer s ms) (durOK_timerPlay _)
    | exact durOK_trans (durOK_offSeekPlayer s ms) (durOK_playerPlay _)
    | exact durOK_trans (durOK_offSeekTimer s ms) (durOK_timerPlay _)
    | exact durOK_trans (durOK_offSeekTimer s ms) (durOK_playerPlay _)

theorem durOK_offReady (s : OffState) : durOK s (offReady s) := by
  unfold offReady
  split
  · exact durOK_trans (durOK_offSetOwnStatus s Ready) (durOK_offReadyImpl _)
  · exact durOK_refl s

theorem durOK_offPlay (s : OffState) : durOK s (offPlay s) := by
  unfold offPlay
  split
  · exact durOK_refl s
  · split
    · exact durOK_timerPlay s
    · exact durOK_playerPlay s

theorem durOK_offPause (s : OffState) : durOK s (offPause s) := by
  simp only [offPause]
  split
  · exact durOK_refl s
  · split
    · exact durOK_trans (durOK_offSetOwnStatus s Pause) (durOK_timerPause _)
    · exact durOK_trans (durOK_offSetOwnStatus s Pause) (durOK_playerPause _)

theorem durOK_setIgnore (s t : OffState) (b : Bool) (h : durOK s t) :
    durOK s { t with ownIgnore := b } :=
  ⟨h.1, h.2.1, h.2.2⟩

theorem durOK_offStop (s : OffState) : durOK s (offStop s) := by
  simp only [offStop]
  split
  · exact durOK_refl s
  · have h1 : durOK s ({ offSetOwnStatus s Ended with ownIgnore := true } : OffState) :=
      durOK_setIgnore s (offSetOwnStatus s Ended) true (durOK_offSetOwnStatus s Ended)
    exact durOK_setIgnore s
      (offActivatePlayer (playerStop (timerStop
        (offReadyImpl { offSetOwnStatus s Ended with ownIgnore := true })))) false
      (durOK_trans (durOK_trans (durOK_trans (durOK_trans h1 (durOK_offReadyImpl _))
        (durOK_timerStop _)) (durOK_playerStop _)) (durOK_offActivatePlayer _))

theorem durOK_offSeek (s : OffState) (ms : ℤ) : durOK s (offSeek s ms) := by
  simp only [offSeek]
  split
  · exact durOK_refl s
  · split
    · exact durOK_offStop s
    · split <;> first
        | exact durOK_trans (durOK_offSeekImpl s _) (durOK_offReady _)
        | exact durOK_trans (durOK_offSeekImpl s _) (durOK_offPause _)
        | exact durOK_trans (durOK_offSeekImpl s _) (durOK_offPlay _)

theorem offDurationInv_of_durOK {s t : OffState} (h : durOK s t) (hs : offDurationInv s) :
    offDurationInv t := by
  obtain ⟨h1, h2, h3⟩ := h
  unfold offDurationInv at *
  rw [h1, h2, h3]
  exact hs

theorem offDurationInv_offUpdateDuration (s : OffState) :
    offDurationInv (offUpdateDuration s) := by
  unfold offUpdateDuration offSetOwnDuration offDurationInv
  split
  · rfl
  · rename_i hc
    exact not_not.mp hc

theorem offDurationInv_offSetOffset (s : OffState) (ms : ℕ) (h : offDurationInv s) :
    offDurationInv (offSetOffset s ms) := by
  simp only [offSetOffset]
  split
  · have h1 : offDurationInv (timerSetDuration s ms) := by
      unfold timerSetDuration
      split
      · exact offDurationInv_offUpdateDuration _
      · exact h
    have h2 : offDurationInv ({ timerSetDuration s ms with offset := ms } : OffState) := h1
    exact offDurationInv_of_durOK (durOK_offSeekImpl _ _) h2
  · exact h

/-- C1: for every Cross-Sync Combinator, on a child status change the
status-derivation step (`ClusterPlayer.updateStatus`) yields: `Playing` if
the emitter is `Playing` and the receptor is `Playing`/`Ended`; `Pause` if
the emitter is `Pause` and the receptor is not `Playing`; `Buffering` if
the emitter is `Buffering` and the receptor is not `Pause`; `Ready` if the
emitter is `Ready` and the receptor is `Ready`/`Ended`; the receptor's
status if the emitter is `Ended`; and otherwise leaves the combinator's
status unchanged. -/
theorem cluster_updateStatus_derivation (e r own : SyncPlayerStatus) :
    (e = Playing → (r = Playing ∨ r = Ended) → updateStatus e r own = Playing) ∧
    (e = Pause → r ≠ Playing → updateStatus e r own = Pause) ∧
    (e = Buffering → r ≠ Pause → updateStatus e r own = Buffering) ∧
    (e = Ready → (r = Ready ∨ r = Ended) → updateStatus e r own = Ready) ∧
    (e = Ended → updateStatus e r own = r) ∧
    (¬ ((e = Playing ∧ (r = Playing ∨ r = Ended)) ∨ (e = Pause ∧ r ≠ Playing) ∨
        (e = Buffering ∧ r ≠ Pause) ∨ (e = Ready ∧ (r = Ready ∨ r = Ended)) ∨
        e = Ended) →
      updateStatus e r own = own) := by
  cases e <;> cases r <;> cases own <;> decide

/-- Witness for C1 at a concrete input: emitter `Playing`, receptor
`Ended`, combinator `Ready` derives `Playing`. -/
theorem cluster_updateStatus_derivation_witness :
    updateStatus Playing Ended Ready = Playing :=
  (cluster_updateStatus_derivation Playing Ended Ready).1 rfl (Or.inr rfl)

/-- C2: on a drift-correction tick (interval 2000 ms): when the combinator
is not `Playing` the consecutive-miss counter resets to 0 with no seek;
when `|rowTime − colTime| ≤ 1000` the counter resets to 0 with no seek; a
first miss (counter 0, difference above 1000 ms) only advances the counter;
and on the second consecutive miss (counter 1 entering the tick, difference
again above 1000 ms) the child with the smaller `currentTime` is seeked to
the other child's `currentTime` and the counter resets to 0. -/
theorem cluster_frameDropTick_spec (own : SyncPlayerStatus) (rowTime colTime : ℤ) (count : ℕ) :
    (own ≠ Playing → frameDropTick own rowTime colTime count = (0, none)) ∧
    (|rowTime - colTime| ≤ 1000 → frameDropTick own rowTime colTime count = (0, none)) ∧
    (own = Playing → 1000 < |rowTime - colTime| →
      frameDropTick own rowTime colTime 0 = (1, none)) ∧
    (own = Playing → 1000 < |rowTime - colTime| → count = 1 →
      frameDropTick own rowTime colTime count =
        (0, some (if rowTime < colTime then (ClusterChild.row, colTime)
                  else (ClusterChild.col, rowTime)))) ∧
    frameDropCheckInterval = 2000 := by
  refine ⟨?_, ?_, ?_, ?_, rfl⟩
  · intro h
    simp [frameDropTick, h]
  · intro h
    unfold frameDropTick
    split
    · rfl
    · simp [not_lt.mpr h]
  · intro hown hdiff
    subst hown
    have h1 : ¬ (Playing ≠ Playing) := fun h => h rfl
    simp only [frameDropTick]
    rw [if_neg h1, if_pos hdiff]
    norm_num
  · intro hown hdiff hcount
    subst hown hcount
    have h1 : ¬ (Playing ≠ Playing) := fun h => h rfl
    simp only [frameDropTick]
    rw [if_neg h1, if_pos hdiff]
    norm_num [sub_neg]

/-- Witness for C2 at a concrete input: combinator `Playing`, row at
5000 ms, col at 2000 ms, counter 1: the col (smaller) child is seeked to
5000 ms and the counter resets. -/
theorem cluster_frameDropTick_spec_witness :
    frameDropTick Playing 5000 2000 1 = (0, some (ClusterChild.col, 5000)) := by
  have h := (cluster_frameDropTick_spec Playing 5000 2000 1).2.2.2.1 rfl (by decide) rfl
  simpa using h

/-- C3 counterexample: on a freshly constructed `TickPlayer(0)` (status
`Ready`, `currentTime = 0`, `duration = 0`), `seek(0)` has `ms ≥ duration`
but hits the `ms === currentTime` early return, leaving the status `Ready`
rather than driving it to `Ended`. -/
theorem tick_seek_at_duration_counterexample :
    ((tickInit 0).duration : ℤ) ≤ 0 ∧ (tickSeek (tickInit 0) 0).status ≠ Ended := by
  decide

/-- C3 amended: for every player (modelled on the TickPlayer leaf),
`seek(ms)` with `ms ≥ duration` whose clamped value differs from the
current time drives the status to `Ended`, and — unless the player was
already `Ended` — afterwards `currentTime` equals `duration`. -/
theorem tick_seek_at_duration_stops (s : TickState) (ms : ℤ)
    (hms : (s.duration : ℤ) ≤ ms) (hne : (max ms 0).toNat ≠ s.currentTime) :
    (tickSeek s ms).status = Ended ∧
      (s.status ≠ Ended → (tickSeek s ms).currentTime = s.duration) := by
  have hd : s.duration ≤ (max ms 0).toNat := by omega
  unfold tickSeek
  rw [if_neg hne, if_pos hd]
  unfold tickStop
  by_cases hE : s.status = Ended
  · rw [if_pos hE]
    exact ⟨hE, fun h => absurd hE h⟩
  · rw [if_neg hE]
    exact ⟨rfl, fun _ => rfl⟩

/-- Witness for C3 amended: a `TickPlayer(5)` at time 0, `seek(10)` ends
the player with `currentTime = 5`. -/
theorem tick_seek_at_duration_stops_witness :
    (tickSeek (tickInit 5) 10).status = Ended ∧ (tickSeek (tickInit 5) 10).currentTime = 5 := by
  have h := tick_seek_at_duration_stops (tickInit 5) 10 (by decide) (by decide)
  exact ⟨h.1, h.2 (by decide)⟩

/-- C4 counterexample: right after construction (initialization in flight,
`ignoreSetStatus` raised by `init()`'s synchronous prefix), the prefix of
`ready()`/`play()` before `await this.loadInit` runs
`this.status = Buffering` through the gated setter, which is suppressed:
the observed status stays `Ready` (not `Buffering`) and no notification is
emitted, while the call then awaits the single in-flight initialization. -/
theorem atom_ready_before_init_counterexample :
    initDispatch atomAfterConstructor.initStatus = InitAction.awaitExisting ∧
    (readyPlayPreAwait atomAfterConstructor).1.status ≠ Buffering ∧
    (readyPlayPreAwait atomAfterConstructor).2 = [] := by
  decide

/-- C4 amended: invoking `ready()` or `play()` before the asynchronous
initialization has completed (init status `Initializing`, suppress flag
raised — both hold throughout initialization) leaves the player state
unchanged and emits nothing (the `Buffering` write is suppressed), and then
awaits the single in-flight initialization rather than starting a second
one. -/
theorem atom_ready_before_init_suppressed (s : AtomState)
    (hinit : s.initStatus = AtomInitStatus.Initializing)
    (hig : s.ignoreSetStatus = true) :
    readyPlayPreAwait s = (s, []) ∧ initDispatch s.initStatus = InitAction.awaitExisting := by
  constructor
  · unfold readyPlayPreAwait setStatus
    simp [hinit, hig]
  · rw [hinit]
    rfl

/-- Witness for C4 amended at the post-constructor state. -/
theorem atom_ready_before_init_suppressed_witness :
    readyPlayPreAwait atomAfterConstructor = (atomAfterConstructor, []) :=
  (atom_ready_before_init_suppressed atomAfterConstructor rfl rfl).1

/-- C5 counterexample: a ClusterPlayer whose row child is `Playing` (so
"either child was playing") while its own status is `Ready` — reachable,
since the derivation step keeps the combinator at `Ready` when one child
starts playing alone (`updateStatus Playing Ready Ready = Ready`) — seeks
both children but invokes `play` on neither, because `seekImpl` reads
`this.isPlaying`, the combinator's own status. -/
theorem cluster_seek_resume_counterexample :
    isPlayingStatus Playing = true ∧
    updateStatus Playing Ready Ready = Ready ∧
    clusterSeekActions Ready 5000 = [ClusterAction.seekRow 5000, ClusterAction.seekCol 5000] ∧
    ClusterAction.playRow ∉ clusterSeekActions Ready 5000 ∧
    ClusterAction.playCol ∉ clusterSeekActions Ready 5000 := by
  decide

/-- C5 amended: `ClusterPlayer.seekImpl(ms)` invokes `seek(ms)` on both
children, and — iff the *combinator itself* was playing (its own status
`Playing` or `Buffering`) immediately beforehand — afterwards invokes
`play` on both children. -/
theorem cluster_seek_fanout (own : SyncPlayerStatus) (ms : ℤ) :
    ClusterAction.seekRow ms ∈ clusterSeekActions own ms ∧
    ClusterAction.seekCol ms ∈ clusterSeekActions own ms ∧
    (isPlayingStatus own = true →
      clusterSeekActions own ms =
        [ClusterAction.seekRow ms, ClusterAction.seekCol ms,
         ClusterAction.playRow, ClusterAction.playCol]) ∧
    (isPlayingStatus own = false →
      clusterSeekActions own ms = [ClusterAction.seekRow ms, ClusterAction.seekCol ms]) := by
  cases own <;> simp [clusterSeekActions, isPlayingStatus]

/-- Witness for C5 amended: a `Buffering` combinator seeking to 0 seeks
then replays both children. -/
theorem cluster_seek_fanout_witness :
    clusterSeekActions Buffering 0 =
      [ClusterAction.seekRow 0, ClusterAction.seekCol 0,
       ClusterAction.playRow, ClusterAction.playCol] :=
  (cluster_seek_fanout Buffering 0).2.2.1 rfl

/-- C6: for the Sequential-Offset combinator, the exposed duration equals
the delay timer's duration plus the wrapped player's duration — it holds at
construction and is preserved by every modeled operation (`ready`, `play`,
`pause`, `stop`, `seek`, `setOffset`) — and concretely, with
`offset = 3000` (wrapped duration 10000): `seek(1000)` leaves the delay
active with combinator `currentTime = 1000` and `visible = false`, and a
subsequent `seek(5000)` activates the wrapped player with wrapped
`currentTime = 2000`, combinator `currentTime = 5000`, `visible = true`. -/
theorem offset_duration_invariant_and_scenario :
    (∀ off wd : ℕ, offDurationInv (offInit off wd)) ∧
    (∀ s : OffState, offDurationInv s → offDurationInv (offReady s)) ∧
    (∀ s : OffState, offDurationInv s → offDurationInv (offPlay s)) ∧
    (∀ s : OffState, offDurationInv s → offDurationInv (offPause s)) ∧
    (∀ s : OffState, offDurationInv s → offDurationInv (offStop s)) ∧
    (∀ (s : OffState) (ms : ℤ), offDurationInv s → offDurationInv (offSeek s ms)) ∧
    (∀ (s : OffState) (ms : ℕ), offDurationInv s → offDurationInv (offSetOffset s ms)) ∧
    ((offSeek (offInit 3000 10000) 1000).activeIsTimer = true ∧
      (offSeek (offInit 3000 10000) 1000).ownTime = 1000 ∧
      (offSeek (offInit 3000 10000) 1000).ownVisible = false) ∧
    ((offSeek (offSeek (offInit 3000 10000) 1000) 5000).activeIsTimer = false ∧
      (offSeek (offSeek (offInit 3000 10000) 1000) 5000).playerTime = 2000 ∧
      (offSeek (offSeek (offInit 3000 10000) 1000) 5000).ownTime = 5000 ∧
      (offSeek (offSeek (offInit 3000 10000) 1000) 5000).ownVisible = true) := by
  refine ⟨fun off wd => rfl, ?_, ?_, ?_, ?_, ?_, ?_, ?_, ?_⟩
  · exact fun s h => offDurationInv_of_durOK (durOK_offReady s) h
  · exact fun s h => offDurationInv_of_durOK (durOK_offPlay s) h
  · exact fun s h => offDurationInv_of_durOK (durOK_offPause s) h
  · exact fun s h => offDurationInv_of_durOK (durOK_offStop s) h
  · exact fun s ms h => offDurationInv_of_durOK (durOK_offSeek s ms) h
  · exact fun s ms h => offDurationInv_offSetOffset s ms h
  · exact ⟨by decide, by decide, by decide⟩
  · exact ⟨by decide, by decide, by decide, by decide⟩

/-- Witness for C6: the duration invariant, transported by the theorem
through a concrete `seek`, holds at a concrete state. -/
theorem offset_duration_invariant_and_scenario_witness :
    offDurationInv (offSeek (offInit 3000 10000) 1000) :=
  offset_duration_invariant_and_scenario.2.2.2.2.2.1 (offInit 3000 10000) 1000 (by decide)

/-- C7: each property setter is an idempotent no-op: assigning the stored
status, a `currentTime`/`duration` whose floor equals the stored value, a
playback rate whose 3-decimal normalization equals the stored rate, or the
stored visibility, changes nothing and emits no notification. -/
theorem atom_setters_idempotent (s : AtomState) :
    setStatus s s.status = (s, []) ∧
    (∀ q : ℚ, ⌊q⌋ = s.currentTime → setCurrentTime s q = (s, [])) ∧
    (∀ q : ℚ, ⌊q⌋ = s.duration → setDuration s q = (s, [])) ∧
    (∀ q : ℚ, normalize q = s.playbackRate → setPlaybackRate s q = (s, [])) ∧
    setVisible s s.visible = (s, []) := by
  refine ⟨?_, ?_, ?_, ?_, ?_⟩
  · simp [setStatus]
  · intro q h
    simp [setCurrentTime, h]
  · intro q h
    simp [setDuration, h]
  · intro q h
    simp [setPlaybackRate, h, isEqual]
  · simp [setVisible]

/-- Witness for C7 at the post-constructor state with concrete inputs. -/
theorem atom_setters_idempotent_witness :
    setStatus atomAfterConstructor atomAfterConstructor.status = (atomAfterConstructor, []) ∧
    setCurrentTime atomAfterConstructor 0 = (atomAfterConstructor, []) ∧
    setPlaybackRate atomAfterConstructor 1 = (atomAfterConstructor, []) := by
  have h := atom_setters_idempotent atomAfterConstructor
  exact ⟨h.1, h.2.1 0 (by decide), h.2.2.2.1 1 (by norm_num [normalize, atomAfterConstructor])⟩

/-- Under a raised `ignoreSetStatus` flag, one hook write keeps the flag
and the status, and emits no status notification. -/
theorem runHookAction_suppressed (s : AtomState) (a : HookAction)
    (hig : s.ignoreSetStatus = true) :
    (runHookAction s a).1.ignoreSetStatus = true ∧
      (runHookAction s a).1.status = s.status ∧
      AtomEvent.status ∉ (runHookAction s a).2 := by
  cases a with
  | writeStatus v =>
      simp [runHookAction, setStatus, hig]
  | writeCurrentTime ms =>
      simp only [runHookAction, setCurrentTime]
      split <;> simp [hig]
  | writeDuration ms =>
      simp only [runHookAction, setDuration]
      split <;> simp [hig]
  | writePlaybackRate v =>
      simp only [runHookAction, setPlaybackRate]
      split <;> simp [hig]
  | writeVisible b =>
      simp only [runHookAction, setVisible]
      split <;> simp [hig]

/-- Under a raised `ignoreSetStatus` flag, a whole hook keeps the flag and
the status, and emits no status notification. -/
theorem runHook_suppressed (acts : List HookAction) :
    ∀ s : AtomState, s.ignoreSetStatus = true →
      (runHook s acts).1.ignoreSetStatus = true ∧
        (runHook s acts).1.status = s.status ∧
        AtomEvent.status ∉ (runHook s acts).2 := by
  induction acts with
  | nil =>
      intro s hig
      simp [runHook, hig]
  | cons a rest ih =>
      intro s hig
      obtain ⟨h1, h2, h3⟩ := runHookAction_suppressed s a hig
      obtain ⟨h4, h5, h6⟩ := ih (runHookAction s a).1 h1
      unfold runHook
      refine ⟨h4, h5.trans h2, ?_⟩
      simp only [List.mem_append]
      exact fun h => h.elim h3 h6

/-- C8: `stop()` is a no-op when the status is already `Ended`; otherwise
it drives the status to `Ended` and runs the ready hook followed by the
stop hook under the raised `ignoreSetStatus` flag, so the whole call emits
exactly one status notification (the change to `Ended`) — observers never
see the transient ready-baseline state — and lowers the flag afterwards. -/
theorem atom_stop_spec (s : AtomState) (readyHook stopHook : List HookAction)
    (hig : s.ignoreSetStatus = false) :
    (s.status = Ended → atomStop s readyHook stopHook = (s, [])) ∧
    (s.status ≠ Ended →
      (atomStop s readyHook stopHook).1.status = Ended ∧
      (atomStop s readyHook stopHook).1.ignoreSetStatus = false ∧
      (atomStop s readyHook stopHook).2.count AtomEvent.status = 1) := by
  constructor
  · intro hE
    simp [atomStop, hE]
  · intro hE
    have hset : setStatus s Ended = ({ s with status := Ended }, [AtomEvent.status]) := by
      simp [setStatus, hig, hE]
    have hig2 : ({ s with status := Ended, ignoreSetStatus := true } : AtomState).ignoreSetStatus
        = true := rfl
    obtain ⟨h1, h2, h3⟩ :=
      runHook_suppressed readyHook { s with status := Ended, ignoreSetStatus := true } hig2
    obtain ⟨h4, h5, h6⟩ :=
      runHook_suppressed stopHook
        (runHook { s with status := Ended, ignoreSetStatus := true } readyHook).1 h1
    unfold atomStop
    rw [if_neg hE, hset]
    refine ⟨by simp [h5, h2], rfl, ?_⟩
    have hc2 : (runHook { s with status := Ended, ignoreSetStatus := true } readyHook).2.count
        AtomEvent.status = 0 := List.count_eq_zero.mpr h3
    have hc3 : (runHook (runHook { s with status := Ended, ignoreSetStatus := true }
        readyHook).1 stopHook).2.count AtomEvent.status = 0 := List.count_eq_zero.mpr h6
    simp [List.count_append, hc2, hc3]

/-- Witness for C8: a `Ready` player with a TickPlayer-like stop hook
(write `currentTime = duration`) stops to `Ended` with exactly one status
notification, and a stop on an `Ended` player is a no-op. -/
theorem atom_stop_spec_witness :
    (atomStop { atomAfterConstructor with ignoreSetStatus := false } []
        [HookAction.writeCurrentTime 0]).1.status = Ended ∧
      (atomStop { atomAfterConstructor with ignoreSetStatus := false } []
        [HookAction.writeCurrentTime 0]).2.count AtomEvent.status = 1 := by
  have h := (atom_stop_spec { atomAfterConstructor with ignoreSetStatus := false } []
    [HookAction.writeCurrentTime 0] rfl).2 (by decide)
  exact ⟨h.1, h.2.2⟩

/-- C9: `SyncPlayer` left-folds the Cross-Sync Combinator over the list:
three players yield `ClusterPlayer(ClusterPlayer(P0, P1), P2)`, and a
one-element list returns that player itself with no combinator built. -/
theorem syncPlayer_fold_shape :
    (∀ p0 p1 p2 : PlayerTree,
      syncPlayerBuild [p0, p1, p2] =
        some (PlayerTree.cluster (PlayerTree.cluster p0 p1) p2)) ∧
    (∀ p : PlayerTree, syncPlayerBuild [p] = some p) :=
  ⟨fun _ _ _ => rfl, fun _ => rfl⟩

/-- C10: `SyncPlayer` on the empty list throws (empty `reduce` with no
initial value, modelled as `none`); on any non-empty list it returns a root
player. -/
theorem syncPlayer_empty_throws :
    syncPlayerBuild [] = none ∧
    ∀ (p : PlayerTree) (ps : List PlayerTree), (syncPlayerBuild (p :: ps)).isSome :=
  ⟨rfl, fun _ _ => rfl⟩

end SyncVideo
